import Mathlib

/-!
Verification of the metric registry and data-treatment core of the
`metric` repository (packages `metrics_hub` and `cap`).

Python dictionaries that map string keys to values are modelled as
association lists in insertion order: assigning a fresh key appends,
assigning an existing key updates the entry in place, lookups scan from
the front.  Python callables that may raise are modelled as functions
into `Except PyErr _`.
-/

namespace MetricVerif

/-- Python `d[k]` lookup on a dict modelled as an insertion-ordered association list. -/
def dictLookup {α : Type} : List (String × α) → String → Option α
  | [], _ => none
  | (k, v) :: rest, key => if k = key then some v else dictLookup rest key

/-- Python `d[k] = v` assignment: updates an existing key in place, appends a fresh key. -/
def dictInsert {α : Type} : List (String × α) → String → α → List (String × α)
  | [], key, v => [(key, v)]
  | (k, w) :: rest, key, v =>
    if k = key then (key, v) :: rest else (k, w) :: dictInsert rest key v

/-- Python `k in d` membership test. -/
def dictHasKey {α : Type} (m : List (String × α)) (key : String) : Bool :=
  (dictLookup m key).isSome

/-- Python `d.keys()` in insertion order. -/
def dictKeys {α : Type} (m : List (String × α)) : List String :=
  m.map Prod.fst

/-- Python `d.get(k, dflt)`: lookup without mutation. -/
def dictGetD {α : Type} (m : List (String × α)) (key : String) (dflt : α) : α :=
  (dictLookup m key).getD dflt

/-- A scalar cell value (JSON-serializable leaf). -/
inductive Scalar where
  | sNone
  | sBool (b : Bool)
  | sInt (n : Int)
  | sStr (s : String)
deriving DecidableEq

/-- A `pandas.DataFrame`: named columns and rows of cells. -/
structure DataFrame where
  columns : List String
  rows : List (List Scalar)
deriving DecidableEq

/-- Python `df.to_dict(orient="records")`: one key-value mapping per row. -/
def DataFrame.to_records (df : DataFrame) : List (List (String × Scalar)) :=
  df.rows.map (fun r => df.columns.zip r)

/-- Rendering of one scalar cell as text (model of the pandas printers). -/
def Scalar.render : Scalar → String
  | .sNone => ""
  | .sBool b => if b then "True" else "False"
  | .sInt n => toString n
  | .sStr s => s

/-- Python `df.to_csv(index=False)`: header line then one line per row (model). -/
def DataFrame.to_csv (df : DataFrame) : String :=
  String.intercalate "," df.columns ++ "\n" ++
    String.intercalate "\n" (df.rows.map (fun r => String.intercalate "," (r.map Scalar.render)))

/-- Python `df.to_html(classes="table table-striped")` (model of the pandas renderer). -/
def DataFrame.to_html (df : DataFrame) : String :=
  "<table class=\"table table-striped\">" ++ String.intercalate "," df.columns ++ "</table>"

/-- A `plotly.graph_objects.Figure`; `figJson` is its JSON-serializable description. -/
structure Figure where
  figJson : List (String × Scalar)
deriving DecidableEq

/-- Python `fig.to_dict()`: the JSON-serializable description of the chart. -/
def Figure.to_dict (fig : Figure) : List (String × Scalar) :=
  fig.figJson

/-- Python `fig.to_html(include_plotlyjs=True, full_html=True)` (model of the plotly renderer). -/
def Figure.to_html_full (fig : Figure) : String :=
  "<html><body>" ++ String.intercalate "," (fig.figJson.map Prod.fst) ++ "</body></html>"

/-- Python `fig.to_html(include_plotlyjs=True, div_id=...)` (model of the plotly renderer). -/
def Figure.to_html_div (fig : Figure) (divId : String) : String :=
  "<div id=\"" ++ divId ++ "\">" ++ String.intercalate "," (fig.figJson.map Prod.fst) ++ "</div>"

/-- A non-`Figure` object that still has a `to_plotly_json` attribute. -/
structure PlotlyObj where
  plotlyJson : List (String × Scalar)
deriving DecidableEq

/-- Python `obj.to_plotly_json()`. -/
def PlotlyObj.to_plotly_json (p : PlotlyObj) : List (String × Scalar) :=
  p.plotlyJson

/-- Python `obj.to_html(include_plotlyjs=True, full_html=True)` for a plotly-like object. -/
def PlotlyObj.to_html_full (p : PlotlyObj) : String :=
  "<html><body>" ++ String.intercalate "," (p.plotlyJson.map Prod.fst) ++ "</body></html>"

/-- A Python runtime value as it flows through the registry and the result
classifier.  `pyDictV` is a dict in key-insertion order. -/
inductive PyVal where
  | pyNone
  | pyBool (b : Bool)
  | pyInt (n : Int)
  | pyStr (s : String)
  | pyList (l : List PyVal)
  | pyDictV (entries : List (String × PyVal))
  | pdDataFrame (df : DataFrame)
  | goFigure (fig : Figure)
  | plotlyLike (p : PlotlyObj)

/-- A raised Python exception, by kind. -/
inductive PyErr where
  | valueError (msg : String)
  | keyError (msg : String)
  | typeError (msg : String)
  | importError (msg : String)
  | otherError (msg : String)
deriving DecidableEq

/-- Keyword arguments of a call: a dict from parameter name to value. -/
abbrev Kwargs := List (String × PyVal)

/-- A metric callable: receives keyword arguments, may raise. -/
abbrev MetricFunc := Kwargs → Except PyErr PyVal

/-- One entry of the `inputs` list of a configuration.  `default` is `some d`
exactly when the `default` key is present in the YAML mapping; an explicit
YAML `null` default is `some PyVal.pyNone`. -/
structure InputParam where
  name : String
  default : Option PyVal

/-- A parsed YAML configuration document (the raw mapping as stored by the
registry).  `id` is `some i` exactly when the `id` key is present;
`inputs` models `config.get("inputs", [])`; `cname` models the `name` key.
The remaining keys (`description`, `category`, ...) are never consulted by
the registry operations embedded here. -/
structure Config where
  id : Option String
  cname : Option String
  inputs : List InputParam

/-- Python `MetricRegistry`: `metrics` is `self.metrics` (id -> config) and
`functions` is `self._functions` (id -> callable). -/
structure MetricRegistry where
  metrics_module : String
  metrics : List (String × Config)
  functions : List (String × MetricFunc)

/-- The outcome of `yaml.safe_load` on one discovered YAML file:
`loadFailed` when opening/parsing raised (logged and skipped), otherwise
the parsed document (`none` for an empty/null document). -/
inductive YamlFile where
  | loadFailed
  | parsed (doc : Option Config)

/-- Python `MetricRegistry._load_configurations`, folded over the discovered YAML
files in glob order: a document that parsed, is non-null and has an `id`
key is stored under that id (`self.metrics[config["id"]] = config`). -/
def loadConfigurations (files : List YamlFile) (metrics0 : List (String × Config)) :
    List (String × Config) :=
  files.foldl (fun m f =>
    match f with
    | .loadFailed => m
    | .parsed none => m
    | .parsed (some config) =>
      match config.id with
      | none => m
      | some i => dictInsert m i config) metrics0

/-- One discovered implementation file: its base name and, unless importing
it raised (logged and skipped), the `(metric_id, function)` pairs of
its top-level functions carrying a `__metric_id__` tag, in
`inspect.getmembers` order. -/
structure PyFile where
  name : String
  imported : Option (List (String × MetricFunc))

/-- Python `MetricRegistry._load_functions`, folded over the discovered Python
files: dunder-named files are skipped, import failures are skipped, and
every tagged function is bound via `self._functions[metric_id] = obj`. -/
def loadFunctions (files : List PyFile) (functions0 : List (String × MetricFunc)) :
    List (String × MetricFunc) :=
  files.foldl (fun m f =>
    if f.name.startsWith "__" then m
    else
      match f.imported with
      | none => m
      | some funcs => funcs.foldl (fun m2 idfn => dictInsert m2 idfn.1 idfn.2) m) functions0

/-- Python `MetricRegistry.__init__` / `load_metrics`: discovery runs once at
construction.  `moduleFound` is false when importing `metrics_module`
raises `ImportError` (both loaders then leave their dict empty);
`yamlFiles` and `pyFiles` are the files discovery finds under the module
root, in glob order. -/
def MetricRegistry.init (metrics_module : String) (moduleFound : Bool)
    (yamlFiles : List YamlFile) (pyFiles : List PyFile) : MetricRegistry :=
  { metrics_module := metrics_module
    metrics := if moduleFound then loadConfigurations yamlFiles [] else []
    functions := if moduleFound then loadFunctions pyFiles [] else [] }

/-- Python `MetricRegistry.get_function`. -/
def MetricRegistry.get_function (r : MetricRegistry) (metric_id : String) : Option MetricFunc :=
  dictLookup r.functions metric_id

/-- Python `MetricRegistry.get_config`. -/
def MetricRegistry.get_config (r : MetricRegistry) (metric_id : String) : Option Config :=
  dictLookup r.metrics metric_id

/-- Python `MetricRegistry.list_all`. -/
def MetricRegistry.list_all (r : MetricRegistry) : List Config :=
  r.metrics.map Prod.snd

/-- The default-injection loop of `call_metric`: for each declared input
parameter, when its name is absent from the (current) kwargs and the
config entry has a `default` key, `kwargs[param_name] = default` (a fresh
key, hence appended). -/
def applyDefaults (inputs : List InputParam) (kwargs : Kwargs) : Kwargs :=
  inputs.foldl (fun kw ip =>
    if dictHasKey kw ip.name then kw
    else
      match ip.default with
      | some d => dictInsert kw ip.name d
      | none => kw) kwargs

/-- Python `MetricRegistry.call_metric`: unknown id raises `ValueError`; when a
configuration exists its declared defaults are injected; the callable is
invoked with the merged kwargs and its outcome returned as is. -/
def MetricRegistry.call_metric (r : MetricRegistry) (metric_id : String) (kwargs : Kwargs) :
    Except PyErr PyVal :=
  match r.get_function metric_id with
  | none => .error (.valueError ("Metric function not found: " ++ metric_id))
  | some func =>
    let merged :=
      match r.get_config metric_id with
      | none => kwargs
      | some config => applyDefaults config.inputs kwargs
    func merged

/-- The process-wide singleton state `_registry` together with the accessor
`get_registry`.  The accessor takes no discovery-root argument: when the
slot is empty it constructs `MetricRegistry()` for the default module
`"metrics_hub.metrics"` and stores it; otherwise it returns the stored
instance.  `moduleFound`, `yamlFiles` and `pyFiles` describe what discovery
finds on the ambient filesystem at construction time. -/
def get_registry (st : Option MetricRegistry) (moduleFound : Bool)
    (yamlFiles : List YamlFile) (pyFiles : List PyFile) :
    MetricRegistry × Option MetricRegistry :=
  match st with
  | some r => (r, some r)
  | none =>
    let r := MetricRegistry.init "metrics_hub.metrics" moduleFound yamlFiles pyFiles
    (r, some r)

/-- The states the module-level `_registry` slot can be in: empty (initial),
or holding a registry produced by a first `get_registry()` call. -/
def RegistryReachable (st : Option MetricRegistry) : Prop :=
  st = none ∨
    ∃ moduleFound yamlFiles pyFiles,
      st = some (get_registry none moduleFound yamlFiles pyFiles).1

/-- A value produced by `_process_result`: either an input value passed
through unchanged, a conversion of a table or chart, rendered text, or a
dict of such values. -/
inductive OutVal where
  | raw (v : PyVal)
  | records (rs : List (List (String × Scalar)))
  | figDict (j : List (String × Scalar))
  | text (s : String)
  | dictOut (entries : List (String × OutVal))

/-- One iteration of the `for key, value in result.items()` loop of
the dict branch of `_process_result`: the accumulator carries
`(processed_dict, contains_complex)`. -/
def processDictStep (output_format : String) (acc : List (String × OutVal) × Bool)
    (kv : String × PyVal) : List (String × OutVal) × Bool :=
  match kv.2 with
  | .pdDataFrame df =>
    (acc.1 ++ [(kv.1,
      if output_format = "json" then OutVal.records df.to_records
      else OutVal.text df.to_html)], true)
  | .goFigure fig =>
    (acc.1 ++ [(kv.1,
      if output_format = "html" then OutVal.text (fig.to_html_div ("plot-" ++ kv.1))
      else OutVal.figDict fig.to_dict)], true)
  | v => (acc.1 ++ [(kv.1, OutVal.raw v)], acc.2)

/-- Python `_process_result` from `metrics_hub/api.py`: classify the return
value and encode it for the requested output format, returning the
`(result_type, processed_result)` pair. -/
def process_result (result : PyVal) (output_format : String) : String × OutVal :=
  match result with
  | .pdDataFrame df =>
    if output_format = "csv" then ("dataframe", .text df.to_csv)
    else if output_format = "html" then ("dataframe", .text df.to_html)
    else ("dataframe", .records df.to_records)
  | .goFigure fig =>
    if output_format = "html" then ("plotly", .text fig.to_html_full)
    else ("plotly", .figDict fig.to_dict)
  | .plotlyLike p =>
    if output_format = "html" then ("plotly", .text p.to_html_full)
    else ("plotly", .figDict p.to_plotly_json)
  | .pyDictV entries =>
    let folded := entries.foldl (processDictStep output_format) ([], false)
    ((if folded.2 then "complex" else "dict"), .dictOut folded.1)
  | v => ("simple", .raw v)

/-- Keyword arguments forwarded to the `fetch` of a source. -/
abbrev FetchKwargs := List (String × Scalar)

/-- A post-fetch transformation (`Callable[[pd.DataFrame], pd.DataFrame]`). -/
abbrev Transformer := DataFrame → DataFrame

/-- A `BaseSource`: its single capability is `fetch(**kwargs) -> DataFrame`,
which may raise. -/
structure Source where
  fetch : FetchKwargs → Except PyErr DataFrame

/-- Python `defaultdict(list)` item access followed by an in-place `append`:
a missing key is materialized with `[]` by `__missing__`, then the stored
list is extended by one element. -/
def ddAppend {α : Type} : List (String × List α) → String → α → List (String × List α)
  | [], key, v => [(key, [v])]
  | (k, l) :: rest, key, v =>
    if k = key then (k, l ++ [v]) :: rest else (k, l) :: ddAppend rest key v

/-- Python `DataTreatment`: `sources` is `self._sources` and `transformers` is
`self._transformers` (a `defaultdict(list)`). -/
structure DataTreatment where
  sources : List (String × Source)
  transformers : List (String × List Transformer)

/-- Python `DataTreatment.register_source` (the `isinstance(source, BaseSource)`
guard cannot fail in this typed model). -/
def DataTreatment.register_source (t : DataTreatment) (name : String) (source : Source) :
    DataTreatment :=
  { t with sources := dictInsert t.sources name source }

/-- Python `DataTreatment.__init__`: registers each given source in order. -/
def DataTreatment.init (sources : List (String × Source)) : DataTreatment :=
  sources.foldl (fun t ns => t.register_source ns.1 ns.2)
    { sources := [], transformers := [] }

/-- Python `DataTreatment.add_transformer`:
`self._transformers[name].append(transformer)`. -/
def DataTreatment.add_transformer (t : DataTreatment) (name : String) (tr : Transformer) :
    DataTreatment :=
  { t with transformers := ddAppend t.transformers name tr }

/-- Python `DataTreatment.load`, with the treatment state threaded explicitly:
unknown name raises `KeyError`; otherwise fetch, then (when requested)
fold the chain `self._transformers.get(name, [])` over the frame — a
non-mutating dict read. -/
def DataTreatment.load (t : DataTreatment) (name : String) (apply_transformers : Bool)
    (fetch_kwargs : FetchKwargs) : Except PyErr DataFrame × DataTreatment :=
  match dictLookup t.sources name with
  | none => (.error (.keyError ("Unknown data source " ++ name)), t)
  | some src =>
    match src.fetch fetch_kwargs with
    | .error e => (.error e, t)
    | .ok df =>
      let df2 :=
        if apply_transformers then
          (dictGetD t.transformers name []).foldl (fun d tr => tr d) df
        else df
      (.ok df2, t)

/-- Python `fetch_plan.get(name, {})` when a plan is given, else `{}`. -/
def planKwargs (fetch_plan : Option (List (String × FetchKwargs))) (name : String) :
    FetchKwargs :=
  match fetch_plan with
  | none => []
  | some plan => dictGetD plan name []

/-- Python `selected = names or self._sources.keys()`: `None` and an empty
collection are both falsy, so either falls back to every registered
source. -/
def selectedNames (t : DataTreatment) (names : Option (List String)) : List String :=
  match names with
  | none => dictKeys t.sources
  | some l => if l.isEmpty then dictKeys t.sources else l

/-- The `for name in selected` loop of `load_many`: each source is loaded
by its own `load` call and stored in `results`; a raised error propagates
immediately, discarding `results`. -/
def loadLoop : DataTreatment → List String → Option (List (String × FetchKwargs)) → Bool →
    List (String × DataFrame) → Except PyErr (List (String × DataFrame)) × DataTreatment
  | t, [], _, _, results => (.ok results, t)
  | t, name :: rest, plan, applyTs, results =>
    match t.load name applyTs (planKwargs plan name) with
    | (.error e, t2) => (.error e, t2)
    | (.ok df, t2) => loadLoop t2 rest plan applyTs (dictInsert results name df)

/-- Python `DataTreatment.load_many`. -/
def DataTreatment.load_many (t : DataTreatment) (names : Option (List String))
    (fetch_plan : Option (List (String × FetchKwargs))) (apply_transformers : Bool) :
    Except PyErr (List (String × DataFrame)) × DataTreatment :=
  loadLoop t (selectedNames t names) fetch_plan apply_transformers []

/-- Python `DataTreatment.available_sources`. -/
def DataTreatment.available_sources (t : DataTreatment) : List String :=
  dictKeys t.sources

/-! Section: Association-list dictionary lemmas -/

theorem dictLookup_insert_self {α : Type} (m : List (String × α)) (k : String) (v : α) :
    dictLookup (dictInsert m k v) k = some v := by
  induction m with
  | nil => simp [dictInsert, dictLookup]
  | cons kv rest ih =>
    obtain ⟨k2, w⟩ := kv
    by_cases h : k2 = k
    · simp [dictInsert, dictLookup, h]
    · simp [dictInsert, dictLookup, h, ih]

theorem dictLookup_insert_ne {α : Type} (m : List (String × α)) (k k2 : String) (v : α)
    (h : k ≠ k2) : dictLookup (dictInsert m k v) k2 = dictLookup m k2 := by
  induction m with
  | nil => simp [dictInsert, dictLookup, h]
  | cons kv rest ih =>
    obtain ⟨k3, w⟩ := kv
    by_cases h2 : k3 = k
    · subst h2; simp [dictInsert, dictLookup, h]
    · simp [dictInsert, dictLookup, h2, ih]

theorem dictHasKey_insert_ne {α : Type} (m : List (String × α)) (k k2 : String) (v : α)
    (h : k ≠ k2) : dictHasKey (dictInsert m k v) k2 = dictHasKey m k2 := by
  simp [dictHasKey, dictLookup_insert_ne m k k2 v h]

theorem dictInsert_eq_append_of_fresh {α : Type} (m : List (String × α)) (k : String) (v : α)
    (h : dictHasKey m k = false) : dictInsert m k v = m ++ [(k, v)] := by
  induction m with
  | nil => rfl
  | cons kv rest ih =>
    obtain ⟨k2, w⟩ := kv
    by_cases h2 : k2 = k
    · simp [dictHasKey, dictLookup, h2] at h
    · simp only [dictInsert, if_neg h2, List.cons_append, List.cons.injEq, true_and]
      exact ih (by simpa [dictHasKey, dictLookup, h2] using h)

/-! Section: Default-injection lemmas for `call_metric` -/

theorem applyDefaults_cons (ip : InputParam) (rest : List InputParam) (kwargs : Kwargs) :
    applyDefaults (ip :: rest) kwargs =
      applyDefaults rest
        (if dictHasKey kwargs ip.name then kwargs
         else
           match ip.default with
           | some d => dictInsert kwargs ip.name d
           | none => kwargs) := rfl

/-- Call-time values take precedence: any key already present in the
kwargs of the caller keeps its value through default injection. -/
theorem applyDefaults_preserves (inputs : List InputParam) :
    ∀ (kwargs : Kwargs) (n : String) (v : PyVal),
      dictLookup kwargs n = some v →
      dictLookup (applyDefaults inputs kwargs) n = some v := by
  induction inputs with
  | nil => intro kwargs n v h; exact h
  | cons ip rest ih =>
    intro kwargs n v h
    rw [applyDefaults_cons]
    apply ih
    cases hk : dictHasKey kwargs ip.name with
    | true => simpa [hk] using h
    | false =>
      cases hd : ip.default with
      | none => simpa [hk, hd] using h
      | some d =>
        simp only [hk, hd, Bool.false_eq_true, if_false]
        rw [dictLookup_insert_ne]
        · exact h
        · intro heq
          rw [heq] at hk
          simp [dictHasKey, h] at hk

/-- A declared parameter whose config entry has a `default` key and whose
name is absent from the kwargs of the caller ends up bound to that default. -/
theorem applyDefaults_injects (inputs : List InputParam) :
    ∀ (kwargs : Kwargs) (p : InputParam) (d : PyVal),
      p ∈ inputs → p.default = some d →
      dictHasKey kwargs p.name = false →
      (inputs.map InputParam.name).Nodup →
      dictLookup (applyDefaults inputs kwargs) p.name = some d := by
  induction inputs with
  | nil => intro _ _ _ hmem; cases hmem
  | cons ip rest ih =>
    intro kwargs p d hmem hd hk hnodup
    rw [applyDefaults_cons]
    rcases List.mem_cons.mp hmem with heq | hmem2
    · subst heq
      simp only [hk, hd, Bool.false_eq_true, if_false]
      exact applyDefaults_preserves rest _ _ _ (dictLookup_insert_self kwargs p.name d)
    · have hpn : p.name ∈ rest.map InputParam.name := List.mem_map_of_mem _ hmem2
      have hne : ip.name ≠ p.name := by
        intro heq
        exact (List.nodup_cons.mp (by simpa using hnodup)).1 (heq ▸ hpn)
      apply ih _ p d hmem2 hd _ (List.nodup_cons.mp (by simpa using hnodup)).2
      cases hk2 : dictHasKey kwargs ip.name with
      | true => simpa [hk2] using hk
      | false =>
        cases hd2 : ip.default with
        | none => simpa [hk2, hd2] using hk
        | some d2 =>
          simp only [hk2, hd2, Bool.false_eq_true, if_false]
          rw [dictHasKey_insert_ne kwargs ip.name p.name d2 hne]
          exact hk

/-- The kwargs `call_metric` actually passes to the callable. -/
def MetricRegistry.merged_kwargs (r : MetricRegistry) (metric_id : String) (kwargs : Kwargs) :
    Kwargs :=
  match r.get_config metric_id with
  | none => kwargs
  | some config => applyDefaults config.inputs kwargs

/-! Section: Claim C1 -/

/-- C1: for a metric with a bound callable and an existing configuration,
`call_metric` invokes the callable on the default-merged kwargs; every
declared input parameter whose config entry has a `default` key (even one
whose stored value is an explicit `None`) and whose name is absent from
the kwargs of the caller is bound to that default; every caller-supplied value
takes precedence over the declared default. -/
theorem call_metric_injects_defaults (r : MetricRegistry) (metric_id : String)
    (func : MetricFunc) (config : Config) (kwargs : Kwargs)
    (hf : r.get_function metric_id = some func)
    (hc : r.get_config metric_id = some config)
    (hnodup : (config.inputs.map InputParam.name).Nodup) :
    r.call_metric metric_id kwargs = func (applyDefaults config.inputs kwargs) ∧
    (∀ p ∈ config.inputs, ∀ d : PyVal, p.default = some d →
      dictHasKey kwargs p.name = false →
      dictLookup (applyDefaults config.inputs kwargs) p.name = some d) ∧
    (∀ (n : String) (v : PyVal), dictLookup kwargs n = some v →
      dictLookup (applyDefaults config.inputs kwargs) n = some v) := by
  refine ⟨?_, ?_, ?_⟩
  · unfold MetricRegistry.call_metric
    rw [hf, hc]
  · intro p hp d hd hk
    exact applyDefaults_injects config.inputs kwargs p d hp hd hk hnodup
  · intro n v h
    exact applyDefaults_preserves config.inputs kwargs n v h

/-- A concrete registry with one bound callable and one configuration
declaring `p` with an explicit `None` default and `q` with default `5`. -/
def calcFunc : MetricFunc := fun kw => .ok (.pyDictV kw)

def cfg0 : Config :=
  { id := some "m1", cname := none,
    inputs := [⟨"p", some PyVal.pyNone⟩, ⟨"q", some (PyVal.pyInt 5)⟩] }

def reg0 : MetricRegistry :=
  { metrics_module := "metrics_hub.metrics"
    metrics := [("m1", cfg0)]
    functions := [("m1", calcFunc)] }

/-- Witness for C1 at a concrete registry and call: the caller supplies
`q=9`; the absent `p` receives its explicit `None` default and `q` keeps
the `9` supplied by the caller. -/
theorem call_metric_injects_defaults_witness :
    reg0.get_function "m1" = some calcFunc ∧
    reg0.get_config "m1" = some cfg0 ∧
    (cfg0.inputs.map InputParam.name).Nodup ∧
    reg0.call_metric "m1" [("q", PyVal.pyInt 9)] =
      calcFunc (applyDefaults cfg0.inputs [("q", PyVal.pyInt 9)]) ∧
    dictLookup (applyDefaults cfg0.inputs [("q", PyVal.pyInt 9)]) "p" = some PyVal.pyNone ∧
    dictLookup (applyDefaults cfg0.inputs [("q", PyVal.pyInt 9)]) "q" = some (PyVal.pyInt 9) := by
  have h := call_metric_injects_defaults reg0 "m1" calcFunc cfg0 [("q", PyVal.pyInt 9)]
    rfl rfl (by decide)
  refine ⟨rfl, rfl, by decide, h.1, ?_, ?_⟩
  · exact h.2.1 ⟨"p", some PyVal.pyNone⟩ (List.Mem.head _) PyVal.pyNone rfl rfl
  · exact h.2.2 "q" (PyVal.pyInt 9) rfl

/-! Section: Claim C2 -/

/-- C2: `call_metric` on an identifier with no bound callable yields
exactly a `ValueError` ("metric not found") and nothing else. -/
theorem call_metric_unknown_value_error (r : MetricRegistry) (metric_id : String)
    (kwargs : Kwargs) (h : r.get_function metric_id = none) :
    r.call_metric metric_id kwargs =
      .error (.valueError ("Metric function not found: " ++ metric_id)) := by
  unfold MetricRegistry.call_metric
  rw [h]

/-- A registry whose discovery found nothing. -/
def regEmpty : MetricRegistry := MetricRegistry.init "metrics_hub.metrics" true [] []

/-- Witness for C2 on an empty registry. -/
theorem call_metric_unknown_value_error_witness :
    regEmpty.get_function "nope" = none ∧
    regEmpty.call_metric "nope" [] =
      .error (.valueError ("Metric function not found: " ++ "nope")) :=
  ⟨rfl, call_metric_unknown_value_error regEmpty "nope" [] rfl⟩

/-! Section: Claim C4 -/

theorem loadConfigurations_append (a b : List YamlFile) (m : List (String × Config)) :
    loadConfigurations (a ++ b) m = loadConfigurations b (loadConfigurations a m) := by
  unfold loadConfigurations
  exact List.foldl_append _ _ _ _

theorem loadConfigurations_last (files : List YamlFile) (c : Config) (i : String)
    (m : List (String × Config)) (h : c.id = some i) :
    dictLookup (loadConfigurations (files ++ [.parsed (some c)]) m) i = some c := by
  rw [loadConfigurations_append]
  simp [loadConfigurations, h, dictLookup_insert_self]

/-- C4: when two configuration files declare the same `id`, the
later-discovered one silently replaces the earlier one: after discovery,
`get_config` for that id returns the later configuration.  The embedded
loader is total — per-file load failures are the skipped `loadFailed`
alternative — so the duplicate load raises nothing. -/
theorem config_last_write_wins (front mid : List YamlFile) (c1 c2 : Config) (i : String)
    (pyFiles : List PyFile) (h1 : c1.id = some i) (h2 : c2.id = some i) :
    (MetricRegistry.init "metrics_hub.metrics" true
        ((front ++ [YamlFile.parsed (some c1)] ++ mid) ++ [YamlFile.parsed (some c2)])
        pyFiles).get_config i = some c2 := by
  unfold MetricRegistry.init MetricRegistry.get_config
  simp only [if_true]
  exact loadConfigurations_last _ c2 i [] h2

/-- Two configurations sharing id `dup`, distinguishable by their `name`. -/
def cfgA : Config := { id := some "dup", cname := some "first", inputs := [] }

def cfgB : Config := { id := some "dup", cname := some "second", inputs := [] }

/-- Witness for C4: loading `cfgA` then `cfgB` leaves `cfgB` resolvable. -/
theorem config_last_write_wins_witness :
    cfgA.id = some "dup" ∧ cfgB.id = some "dup" ∧
    (MetricRegistry.init "metrics_hub.metrics" true
        (([] ++ [YamlFile.parsed (some cfgA)] ++ []) ++ [YamlFile.parsed (some cfgB)])
        []).get_config "dup" = some cfgB :=
  ⟨rfl, rfl, config_last_write_wins [] [] cfgA cfgB "dup" [] rfl rfl⟩

/-! Section: Claim C5 -/

/-- C5: for a bound callable, `call_metric` invokes it on the merged
kwargs and returns its outcome as is; in particular an error raised by
the metric body propagates unchanged and a normal result is returned
unmodified — the registry catches and translates nothing. -/
theorem call_metric_propagates (r : MetricRegistry) (metric_id : String)
    (func : MetricFunc) (kwargs : Kwargs)
    (hf : r.get_function metric_id = some func) :
    r.call_metric metric_id kwargs = func (r.merged_kwargs metric_id kwargs) ∧
    (∀ e : PyErr, func (r.merged_kwargs metric_id kwargs) = .error e →
      r.call_metric metric_id kwargs = .error e) ∧
    (∀ v : PyVal, func (r.merged_kwargs metric_id kwargs) = .ok v →
      r.call_metric metric_id kwargs = .ok v) := by
  have h1 : r.call_metric metric_id kwargs = func (r.merged_kwargs metric_id kwargs) := by
    unfold MetricRegistry.call_metric MetricRegistry.merged_kwargs
    rw [hf]
  exact ⟨h1, fun e he => h1.trans he, fun v hv => h1.trans hv⟩

/-- A metric body that raises. -/
def failFunc : MetricFunc := fun _ => .error (.otherError "boom")

def regFail : MetricRegistry :=
  { metrics_module := "metrics_hub.metrics"
    metrics := []
    functions := [("mf", failFunc)] }

/-- Witness for C5: the error raised inside the metric body surfaces
from `call_metric` unchanged. -/
theorem call_metric_propagates_witness :
    regFail.get_function "mf" = some failFunc ∧
    regFail.call_metric "mf" [] = .error (.otherError "boom") := by
  have h := call_metric_propagates regFail "mf" failFunc [] rfl
  exact ⟨rfl, h.2.1 (.otherError "boom") rfl⟩

/-! Section: Claim C3 -/

/-- Does one dict entry hold a table or chart value?  (The trigger for
`contains_complex` in the loop.) -/
def isComplexEntry (kv : String × PyVal) : Bool :=
  match kv.2 with
  | .pdDataFrame _ => true
  | .goFigure _ => true
  | _ => false

/-- The per-entry conversion performed by the dict branch of
`_process_result`. -/
def convertEntry (output_format : String) (kv : String × PyVal) : String × OutVal :=
  (kv.1,
    match kv.2 with
    | .pdDataFrame df =>
      if output_format = "json" then OutVal.records df.to_records
      else OutVal.text df.to_html
    | .goFigure fig =>
      if output_format = "html" then OutVal.text (fig.to_html_div ("plot-" ++ kv.1))
      else OutVal.figDict fig.to_dict
    | v => OutVal.raw v)

theorem processDictStep_eq (output_format : String) (acc : List (String × OutVal) × Bool)
    (kv : String × PyVal) :
    processDictStep output_format acc kv =
      (acc.1 ++ [convertEntry output_format kv], acc.2 || isComplexEntry kv) := by
  obtain ⟨k, v⟩ := kv
  cases v <;> simp [processDictStep, convertEntry, isComplexEntry]

theorem processDict_foldl (output_format : String) (entries : List (String × PyVal)) :
    ∀ acc, entries.foldl (processDictStep output_format) acc =
      (acc.1 ++ entries.map (convertEntry output_format),
       acc.2 || entries.any isComplexEntry) := by
  induction entries with
  | nil => intro acc; simp
  | cons kv rest ih =>
    intro acc
    rw [List.foldl_cons, processDictStep_eq, ih]
    simp [Bool.or_assoc]

/-- C3: a mapping result is classified `"complex"` exactly when at least
one of its values is a table or chart and `"dict"` otherwise; in json
format the processed mapping converts exactly the table entries to
row-record sequences and the chart entries to their JSON description,
passing every other entry through unchanged. -/
theorem process_result_mapping (entries : List (String × PyVal)) (output_format : String) :
    (process_result (.pyDictV entries) output_format).1 =
      (if entries.any isComplexEntry then "complex" else "dict") ∧
    (process_result (.pyDictV entries) "json").2 =
      .dictOut (entries.map (fun kv =>
        (kv.1,
          match kv.2 with
          | .pdDataFrame df => OutVal.records df.to_records
          | .goFigure fig => OutVal.figDict fig.to_dict
          | v => OutVal.raw v))) := by
  have hjson : convertEntry "json" = fun kv =>
      ((kv.1,
        match kv.2 with
        | .pdDataFrame df => OutVal.records df.to_records
        | .goFigure fig => OutVal.figDict fig.to_dict
        | v => OutVal.raw v) : String × OutVal) := by
    funext kv
    obtain ⟨k, v⟩ := kv
    cases v <;> rfl
  constructor
  · show (if (entries.foldl (processDictStep output_format) ([], false)).2
        then "complex" else "dict") = _
    rw [processDict_foldl]
    rw [Bool.false_or]
  · show OutVal.dictOut (entries.foldl (processDictStep "json") ([], false)).1 = _
    rw [processDict_foldl]
    simp [hjson]

/-! Section: DataTreatment lemmas -/

/-- Python `load` leaves the treatment state untouched in every branch: the only
dict operations it performs are non-mutating reads (`name in self._sources`,
`self._sources[name]` on a present key, `self._transformers.get(name, [])`). -/
theorem load_snd (t : DataTreatment) (name : String) (applyTs : Bool) (fk : FetchKwargs) :
    (t.load name applyTs fk).2 = t := by
  unfold DataTreatment.load
  split
  · rfl
  · split
    · rfl
    · rfl

theorem loadLoop_snd (ns : List String) :
    ∀ (t : DataTreatment) (plan : Option (List (String × FetchKwargs))) (applyTs : Bool)
      (results : List (String × DataFrame)),
      (loadLoop t ns plan applyTs results).2 = t := by
  induction ns with
  | nil => intro t plan applyTs results; rfl
  | cons name rest ih =>
    intro t plan applyTs results
    unfold loadLoop
    cases hL : t.load name applyTs (planKwargs plan name) with
    | mk res st =>
      have hst : st = t := by
        have h := load_snd t name applyTs (planKwargs plan name)
        rw [hL] at h
        exact h
      cases res with
      | error e => simpa using hst
      | ok df => simpa [ih] using hst

theorem dictLookup_ddAppend_self {α : Type} (m : List (String × List α)) (k : String) (v : α) :
    dictLookup (ddAppend m k v) k = some ((dictLookup m k).getD [] ++ [v]) := by
  induction m with
  | nil => simp [ddAppend, dictLookup]
  | cons kv rest ih =>
    obtain ⟨k2, l⟩ := kv
    by_cases h : k2 = k
    · subst h; simp [ddAppend, dictLookup]
    · simp [ddAppend, dictLookup, h, ih]

theorem dictGetD_ddAppend_self {α : Type} (m : List (String × List α)) (k : String) (v : α) :
    dictGetD (ddAppend m k v) k [] = dictGetD m k [] ++ [v] := by
  rw [dictGetD, dictLookup_ddAppend_self]
  rfl

/-! Section: Claim C6 -/

/-- C6: `load` on an unregistered name raises a `KeyError`; on a
registered name it first fetches from the source and, when
`apply_transformers` is true, folds the transformer chain of that name
over the fetched frame (first-added transformer applied first); a
transformer added with `add_transformer` lands at the end of that chain,
so addition order is application order. -/
theorem load_fetch_then_transformers (t : DataTreatment) (name : String)
    (fetch_kwargs : FetchKwargs) :
    (∀ applyTs : Bool, dictLookup t.sources name = none →
      (t.load name applyTs fetch_kwargs).1 =
        .error (.keyError ("Unknown data source " ++ name))) ∧
    (∀ src : Source, dictLookup t.sources name = some src →
      (t.load name true fetch_kwargs).1 =
        (match src.fetch fetch_kwargs with
         | .error e => .error e
         | .ok df => .ok ((dictGetD t.transformers name []).foldl (fun d tr => tr d) df))) ∧
    (∀ tr : Transformer,
      dictGetD (t.add_transformer name tr).transformers name [] =
        dictGetD t.transformers name [] ++ [tr]) := by
  refine ⟨?_, ?_, ?_⟩
  · intro applyTs h
    unfold DataTreatment.load
    rw [h]
  · intro src h
    unfold DataTreatment.load
    simp only [h]
    cases hfe : src.fetch fetch_kwargs with
    | error e => simp [hfe]
    | ok df => simp [hfe]
  · intro tr
    exact dictGetD_ddAppend_self t.transformers name tr

/-- Concrete fixtures for the C6 witness: one source whose fetch yields a
one-column frame, and two transformers whose application order is
observable in the column list. -/
def dfSales : DataFrame := { columns := ["c"], rows := [] }

def srcSales : Source := ⟨fun _ => .ok dfSales⟩

def trF : Transformer := fun df => { df with columns := df.columns ++ ["f"] }

def trG : Transformer := fun df => { df with columns := df.columns ++ ["g"] }

def ddt1 : DataTreatment :=
  ((DataTreatment.init [("sales", srcSales)]).add_transformer "sales" trF).add_transformer
    "sales" trG

/-- Witness for C6: an unknown name raises `KeyError`; on `"sales"` the
chain added as `trF` then `trG` runs in exactly that order (columns end
up `["c", "f", "g"]`, not `["c", "g", "f"]`). -/
theorem load_fetch_then_transformers_witness :
    dictLookup ddt1.sources "missing" = none ∧
    (ddt1.load "missing" true []).1 =
      .error (.keyError ("Unknown data source " ++ "missing")) ∧
    dictLookup ddt1.sources "sales" = some srcSales ∧
    (ddt1.load "sales" true []).1 = .ok { columns := ["c", "f", "g"], rows := [] } := by
  have hmiss := (load_fetch_then_transformers ddt1 "missing" []).1 true rfl
  have hsales := (load_fetch_then_transformers ddt1 "sales" []).2.1 srcSales rfl
  exact ⟨rfl, hmiss, rfl, hsales.trans rfl⟩

/-! Section: Claim C7 -/

theorem loadLoop_abort (plan : Option (List (String × FetchKwargs))) (applyTs : Bool) :
    ∀ (pre : List String) (t : DataTreatment) (badName : String) (post : List String)
      (results : List (String × DataFrame)) (e : PyErr),
      (∀ n ∈ pre, ∃ df, (t.load n applyTs (planKwargs plan n)).1 = .ok df) →
      (t.load badName applyTs (planKwargs plan badName)).1 = .error e →
      (loadLoop t (pre ++ badName :: post) plan applyTs results).1 = .error e := by
  intro pre
  induction pre with
  | nil =>
    intro t badName post results e _ hbad
    rw [List.nil_append]
    unfold loadLoop
    cases hL : t.load badName applyTs (planKwargs plan badName) with
    | mk res st =>
      rw [hL] at hbad
      cases res with
      | error e2 => simpa using hbad
      | ok df => simp at hbad
  | cons n rest ih =>
    intro t badName post results e hpre hbad
    rw [List.cons_append]
    unfold loadLoop
    obtain ⟨df, hdf⟩ := hpre n (List.mem_cons_self n rest)
    cases hL : t.load n applyTs (planKwargs plan n) with
    | mk res st =>
      rw [hL] at hdf
      have hst : st = t := by
        have h2 := load_snd t n applyTs (planKwargs plan n)
        rw [hL] at h2
        exact h2
      cases res with
      | error e2 => simp at hdf
      | ok df2 =>
        rw [hst]
        exact ih t badName post _ e (fun m hm => hpre m (List.mem_cons_of_mem _ hm)) hbad

/-- C7: in `load_many` each selected source is loaded by its own `load`
call against the unchanged treatment; if the loads of an initial segment
succeed and the next one raises, the whole call raises that very error
and no partial mapping is returned. -/
theorem load_many_aborts (t : DataTreatment) (names : Option (List String))
    (plan : Option (List (String × FetchKwargs))) (applyTs : Bool)
    (pre post : List String) (badName : String) (e : PyErr)
    (hsel : selectedNames t names = pre ++ badName :: post)
    (hpre : ∀ n ∈ pre, ∃ df, (t.load n applyTs (planKwargs plan n)).1 = .ok df)
    (hbad : (t.load badName applyTs (planKwargs plan badName)).1 = .error e) :
    (t.load_many names plan applyTs).1 = .error e := by
  unfold DataTreatment.load_many
  rw [hsel]
  exact loadLoop_abort plan applyTs pre t badName post [] e hpre hbad

/-- Fixtures for the C7 witness: source `"a"` succeeds, source `"b"`
raises. -/
def dfA : DataFrame := { columns := ["a"], rows := [] }

def srcA : Source := ⟨fun _ => .ok dfA⟩

def srcBad : Source := ⟨fun _ => .error (.otherError "fetch failed")⟩

def ddt7 : DataTreatment := DataTreatment.init [("a", srcA), ("b", srcBad)]

/-- Witness for C7: with `"a"` loading fine and `"b"` raising, the whole
`load_many` raises the `"b"` error. -/
theorem load_many_aborts_witness :
    selectedNames ddt7 none = ["a"] ++ "b" :: [] ∧
    (ddt7.load "b" true (planKwargs none "b")).1 = .error (.otherError "fetch failed") ∧
    (ddt7.load_many none none true).1 = .error (.otherError "fetch failed") := by
  refine ⟨rfl, rfl, load_many_aborts ddt7 none none true ["a"] [] "b"
    (.otherError "fetch failed") rfl ?_ rfl⟩
  intro n hn
  have hn2 : n = "a" := List.mem_singleton.mp hn
  subst hn2
  exact ⟨dfA, rfl⟩

/-! Section: Claim C9 -/

/-- C9: `load` and `load_many` are pure with respect to the treatment state — after either call the registered sources and every
transformer chain are exactly what they were before. -/
theorem treatment_state_unchanged (t : DataTreatment) :
    (∀ (name : String) (applyTs : Bool) (fk : FetchKwargs),
      (t.load name applyTs fk).2.sources = t.sources ∧
      (t.load name applyTs fk).2.transformers = t.transformers) ∧
    (∀ (names : Option (List String)) (plan : Option (List (String × FetchKwargs)))
      (applyTs : Bool),
      (t.load_many names plan applyTs).2.sources = t.sources ∧
      (t.load_many names plan applyTs).2.transformers = t.transformers) := by
  constructor
  · intro name applyTs fk
    rw [load_snd t name applyTs fk]
    exact ⟨rfl, rfl⟩
  · intro names plan applyTs
    unfold DataTreatment.load_many
    rw [loadLoop_snd (selectedNames t names) t plan applyTs []]
    exact ⟨rfl, rfl⟩

/-! Section: Claim C10 -/

theorem loadLoop_ok_keys (ns : List String) :
    ∀ (t : DataTreatment) (plan : Option (List (String × FetchKwargs))) (applyTs : Bool)
      (results m : List (String × DataFrame)),
      (loadLoop t ns plan applyTs results).1 = .ok m →
      (∀ n ∈ ns, dictHasKey results n = false) →
      ns.Nodup →
      dictKeys m = dictKeys results ++ ns := by
  induction ns with
  | nil =>
    intro t plan applyTs results m hm _ _
    have : results = m := by simpa [loadLoop] using hm
    subst this
    simp
  | cons name rest ih =>
    intro t plan applyTs results m hm hkeys hnodup
    unfold loadLoop at hm
    cases hL : t.load name applyTs (planKwargs plan name) with
    | mk res st =>
      rw [hL] at hm
      cases res with
      | error e => simp at hm
      | ok df =>
        have hst : st = t := by
          have h := load_snd t name applyTs (planKwargs plan name)
          rw [hL] at h
          exact h
        rw [hst] at hm
        have hnot : dictHasKey results name = false :=
          hkeys name (List.mem_cons_self _ _)
        have hkeys2 : ∀ n ∈ rest, dictHasKey (dictInsert results name df) n = false := by
          intro n hn
          have hne : name ≠ n := by
            intro h
            exact (List.nodup_cons.mp hnodup).1 (h ▸ hn)
          rw [dictHasKey_insert_ne results name n df hne]
          exact hkeys n (List.mem_cons_of_mem _ hn)
        have hrec := ih t plan applyTs (dictInsert results name df) m hm hkeys2
          (List.nodup_cons.mp hnodup).2
        rw [hrec, dictInsert_eq_append_of_fresh results name df hnot]
        simp [dictKeys]

/-- C10: `load_many` with an explicitly empty names list behaves exactly
like `load_many` with no names argument — the empty (falsy) selection
falls back to every registered source — and a successful call returns one
entry per registered source, in registration order. -/
theorem load_many_empty_names (t : DataTreatment)
    (plan : Option (List (String × FetchKwargs))) (applyTs : Bool)
    (hnodup : (dictKeys t.sources).Nodup) :
    t.load_many (some []) plan applyTs = t.load_many none plan applyTs ∧
    (∀ m, (t.load_many (some []) plan applyTs).1 = .ok m →
      dictKeys m = dictKeys t.sources) := by
  constructor
  · rfl
  · intro m hm
    unfold DataTreatment.load_many at hm
    have hsel : selectedNames t (some []) = dictKeys t.sources := rfl
    rw [hsel] at hm
    have := loadLoop_ok_keys (dictKeys t.sources) t plan applyTs [] m hm
      (fun n _ => rfl) hnodup
    simpa using this

/-- Fixtures for the C10 witness: two registered sources. -/
def dfX : DataFrame := { columns := ["x"], rows := [] }

def dfY : DataFrame := { columns := ["y"], rows := [] }

def srcX : Source := ⟨fun _ => .ok dfX⟩

def srcY : Source := ⟨fun _ => .ok dfY⟩

def ddt10 : DataTreatment := DataTreatment.init [("x", srcX), ("y", srcY)]

/-- Witness for C10: `load_many([])` equals `load_many()` and yields one
entry per registered source. -/
theorem load_many_empty_names_witness :
    (dictKeys ddt10.sources).Nodup ∧
    ddt10.load_many (some []) none true = ddt10.load_many none none true ∧
    dictKeys [("x", dfX), ("y", dfY)] = dictKeys ddt10.sources := by
  have h := load_many_empty_names ddt10 none true (by decide)
  exact ⟨by decide, h.1, h.2 [("x", dfX), ("y", dfY)] rfl⟩

/-! Section: Claim C8 -/

/-- Every access through `get_registry` — from the initial empty slot or
from any slot a first call can have produced — yields a registry whose
discovery root is the fixed default module. -/
theorem get_registry_module_of_reachable (st : Option MetricRegistry)
    (h : RegistryReachable st) (moduleFound : Bool) (yamlFiles : List YamlFile)
    (pyFiles : List PyFile) :
    (get_registry st moduleFound yamlFiles pyFiles).1.metrics_module =
      "metrics_hub.metrics" := by
  rcases h with rfl | ⟨b, y, p, rfl⟩
  · rfl
  · rfl

/-- C8 (amended): `get_registry` lazily constructs a single Registry for
the fixed default discovery root `"metrics_hub.metrics"` and memoizes it:
a call on the empty slot builds and stores `MetricRegistry()`, a call on a
filled slot returns the stored instance unchanged, so repeated accesses
return the same instance.  The accessor takes no discovery-root
parameter. -/
theorem get_registry_singleton (moduleFound moduleFound2 : Bool)
    (yamlFiles yamlFiles2 : List YamlFile) (pyFiles pyFiles2 : List PyFile)
    (r : MetricRegistry) :
    get_registry none moduleFound yamlFiles pyFiles =
      (MetricRegistry.init "metrics_hub.metrics" moduleFound yamlFiles pyFiles,
       some (MetricRegistry.init "metrics_hub.metrics" moduleFound yamlFiles pyFiles)) ∧
    get_registry (some r) moduleFound yamlFiles pyFiles = (r, some r) ∧
    (get_registry (get_registry none moduleFound yamlFiles pyFiles).2
        moduleFound2 yamlFiles2 pyFiles2).1 =
      (get_registry none moduleFound yamlFiles pyFiles).1 :=
  ⟨rfl, rfl, rfl⟩

/-- Counterexample to C8 as stated: the accessor cannot yield registries
for two distinct discovery roots — no two accesses, from any reachable
slot states and any filesystem contents, ever return registries with
different discovery roots, because the accessor takes no root argument
and always constructs for the default module. -/
theorem get_registry_no_distinct_roots :
    ¬ ∃ (s1 s2 : Option MetricRegistry) (b1 b2 : Bool) (y1 y2 : List YamlFile)
        (p1 p2 : List PyFile),
        RegistryReachable s1 ∧ RegistryReachable s2 ∧
        (get_registry s1 b1 y1 p1).1.metrics_module ≠
          (get_registry s2 b2 y2 p2).1.metrics_module := by
  rintro ⟨s1, s2, b1, b2, y1, y2, p1, p2, h1, h2, hne⟩
  exact hne ((get_registry_module_of_reachable s1 h1 b1 y1 p1).trans
    (get_registry_module_of_reachable s2 h2 b2 y2 p2).symm)

end MetricVerif
